import Mathlib

/-!
Shallow embedding of `src/xcsg/xcsg_main.cpp` (xcsg pipeline driver).

The three member functions `xcsg_main::run`, `xcsg_main::run_xsolid` and
`xcsg_main::run_xshape2d` are modelled as pure functions over an environment
record that captures the behaviour of the external collaborators (command
line, XML tree, factory, carve/clipper kernels, file writers).  C++
exceptions are modelled with `Except`; observable behaviour (kernel calls,
warnings, export writes) is recorded in an event trace.
-/

namespace Xcsg

/-- C++ exception classes that flow through `xcsg_main`:
`carve::exception` is the kernel-specific geometric error; `std::logic_error`
and `std::runtime_error` are thrown by `xcsg_main` itself; `other` stands for
any further `std::exception` subclass raised by a collaborator. -/
inductive Err where
  | carve (msg : String)
  | logicError (msg : String)
  | runtimeError (msg : String)
  | other (msg : String)
deriving DecidableEq, Repr

/-- The export formats dispatched in `run_xsolid` / `run_xshape2d`.
`stl_bin` is `write_stl(file,true)`, `stl_ascii` is `write_stl(file,false)`. -/
inductive Fmt where
  | csg | amf | obj | off | stl_bin | stl_ascii | svg | dxf
deriving DecidableEq, Repr

/-- A polygon face of a manifold lump: the list of its vertex indices. -/
structure Face where
  verts : List Nat
deriving DecidableEq, Repr

/-- Essentials of an `xpolyhedron` lump: vertex count and face list. -/
structure Poly where
  v_size : Nat
  faces : List Face
deriving DecidableEq, Repr

/-- A 2D polygon loop as produced by the clipper polyset. -/
structure Polygon2d where
  points : List (Int × Int)
deriving DecidableEq, Repr

/-- The solid object returned by `xcsg_factory::make_solid`; only its cached
boolean-operation count `nbool()` is consulted by `run_xsolid`. -/
structure SolidObj where
  nbool : Nat
deriving DecidableEq, Repr

/-- The 2D object returned by `xcsg_factory::make_shape2d`. -/
structure Shape2dObj where
  nbool : Nat
deriving DecidableEq, Repr

/-- Observable events of a pipeline run. -/
inductive Event where
  | boolKernel3D
  | boolKernel2D
  | triKernel
  | warn (msg : String)
  | exportPhase
  | export3d (fmt : Fmt) (mesh : List (List Face))
  | export2d (fmt : Fmt) (polyset : List Polygon2d)
  | existsCheck (path : String)
  | readXml (path : String)
  | procSolid (id : Nat)
  | procShape2d (id : Nat)
deriving DecidableEq, Repr

/-- The message built at xcsg_main.cpp:144-145 / 237-238:
`"Max " << m_cmd.max_bool() << " boolean operations allowed in this configuration."`. -/
def budget_error_msg (maxBool : Nat) : String :=
  "Max " ++ toString maxBool ++ " boolean operations allowed in this configuration."

/-- Modelled from the spec: `xpolyhedron::check_polyhedron` (its definition is
not under src/, only its call site) reports through its out-parameter
`num_non_tri` the number of non-triangular faces, i.e. faces with more than
3 vertices; triangulation is needed iff any face has more than 3 vertices. -/
def num_non_tri (p : Poly) : Nat :=
  (p.faces.filter (fun f => f.verts.length > 3)).length

/-- Sequence two fallible, trace-producing steps: the second runs only when
the first did not throw; traces concatenate. -/
def seqE (a : Except Err Unit × List Event) (b : Unit → Except Err Unit × List Event) :
    Except Err Unit × List Event :=
  match a with
  | (Except.error e, evs) => (Except.error e, evs)
  | (Except.ok _, evs) =>
    match b () with
    | (r, evs2) => (r, evs ++ evs2)

/-- One conditional 3D export write (`if(m_cmd.count(fmt)>0) ... write ...`). -/
def writeIf3d (enabled : Bool) (fmt : Fmt)
    (w : Fmt → List (List Face) → Except Err String) (mesh : List (List Face)) :
    Except Err Unit × List Event :=
  if enabled then
    match w fmt mesh with
    | Except.error e => (Except.error e, [Event.export3d fmt mesh])
    | Except.ok _ => (Except.ok (), [Event.export3d fmt mesh])
  else (Except.ok (), [])

/-- One conditional 2D export write. -/
def writeIf2d (enabled : Bool) (fmt : Fmt)
    (w : Fmt → List Polygon2d → Except Err String) (ps : List Polygon2d) :
    Except Err Unit × List Event :=
  if enabled then
    match w fmt ps with
    | Except.error e => (Except.error e, [Event.export2d fmt ps])
    | Except.ok _ => (Except.ok (), [Event.export2d fmt ps])
  else (Except.ok (), [])

/-- Environment of `run_xsolid`: the command-line flags and ceiling, the
factory result, and the behaviour of the carve kernel, the triangulation
kernel and the file writers. `manifolds` is the content of the carve result
accumulator after `compute` returns or raises (the partial accumulation). -/
structure SolidEnv where
  counts : String → Nat
  maxBool : Nat
  obj : Option SolidObj
  computeResult : Except Err Unit
  manifolds : List Poly
  triangulateFn : Poly → Except Err (List Face)
  write3d : Fmt → List (List Face) → Except Err String

/-- The per-lump loop of `run_xsolid` (xcsg_main.cpp:180-202): for each lump,
if `num_non_tri > 0` call the triangulation kernel (`compute2d`), else pass
the face set through unchanged (`add`); accumulate every lump's face set into
the shared polyset. -/
def processLumps (tri : Poly → Except Err (List Face)) :
    List Poly → Except Err (List (List Face)) × List Event
  | [] => (Except.ok [], [])
  | p :: rest =>
    if num_non_tri p > 0 then
      match tri p with
      | Except.error e => (Except.error e, [Event.triKernel])
      | Except.ok tfaces =>
        let r := processLumps tri rest
        (r.1.map (fun sets => tfaces :: sets), Event.triKernel :: r.2)
    else
      let r := processLumps tri rest
      (r.1.map (fun sets => p.faces :: sets), r.2)

/-- The 3D export block of `run_xsolid` (xcsg_main.cpp:208-215): csg, then
amf, then obj, then off, then a single STL variant with binary preferred. -/
def exports3d (env : SolidEnv) (mesh : List (List Face)) :
    Except Err Unit × List Event :=
  seqE (writeIf3d (env.counts "csg" > 0) Fmt.csg env.write3d mesh) (fun _ =>
  seqE (writeIf3d (env.counts "amf" > 0) Fmt.amf env.write3d mesh) (fun _ =>
  seqE (writeIf3d (env.counts "obj" > 0) Fmt.obj env.write3d mesh) (fun _ =>
  seqE (writeIf3d (env.counts "off" > 0) Fmt.off env.write3d mesh) (fun _ =>
  if env.counts "stl" > 0 then writeIf3d true Fmt.stl_bin env.write3d mesh
  else if env.counts "astl" > 0 then writeIf3d true Fmt.stl_ascii env.write3d mesh
  else (Except.ok (), [])))))

/-- `xcsg_main::run_xsolid` (xcsg_main.cpp:132-222).  A null factory object
throws; then the budget check; then the carve union reduction inside a `try`
that catches exactly `carve::exception` (downgrading it to a warning); then
manifold extraction, the triangulation gate, and the export block. -/
def run_xsolid (env : SolidEnv) : Except Err Bool × List Event :=
  match env.obj with
  | none => (Except.error (Err.logicError "xcsg tree contains no data. "), [])
  | some obj =>
    if obj.nbool > env.maxBool then
      (Except.error (Err.logicError (budget_error_msg env.maxBool)), [])
    else
      let computeStep : Except Err Unit × List Event :=
        match env.computeResult with
        | Except.ok _ => (Except.ok (), [Event.boolKernel3D])
        | Except.error (Err.carve m) =>
          (Except.ok (), [Event.boolKernel3D, Event.warn ("(carve error): " ++ m)])
        | Except.error e => (Except.error e, [Event.boolKernel3D])
      match computeStep with
      | (Except.error e, evs) => (Except.error e, evs)
      | (Except.ok _, evs) =>
        match processLumps env.triangulateFn env.manifolds with
        | (Except.error e, evs2) => (Except.error e, evs ++ evs2)
        | (Except.ok polyset, evs2) =>
          match exports3d env polyset with
          | (Except.error e, evs4) =>
            (Except.error e, evs ++ evs2 ++ [Event.exportPhase] ++ evs4)
          | (Except.ok _, evs4) =>
            (Except.ok true, evs ++ evs2 ++ [Event.exportPhase] ++ evs4)

/-- Environment of `run_xshape2d`: command line, factory result, the clipper
kernel's result polyset (or its propagating failure) and the 2D writers. -/
structure Shape2dEnv where
  counts : String → Nat
  maxBool : Nat
  obj : Option Shape2dObj
  clipperResult : Except Err (List Polygon2d)
  write2d : Fmt → List Polygon2d → Except Err String

/-- The 2D export block of `run_xshape2d` (xcsg_main.cpp:252-272): csg, then
svg, then dxf. -/
def exports2d (env : Shape2dEnv) (ps : List Polygon2d) :
    Except Err Unit × List Event :=
  seqE (writeIf2d (env.counts "csg" > 0) Fmt.csg env.write2d ps) (fun _ =>
  seqE (writeIf2d (env.counts "svg" > 0) Fmt.svg env.write2d ps) (fun _ =>
  writeIf2d (env.counts "dxf" > 0) Fmt.dxf env.write2d ps))

/-- `xcsg_main::run_xshape2d` (xcsg_main.cpp:225-280).  A null factory object
throws; then the budget check; then the clipper union reduction with no
surrounding try/catch (any failure propagates); then the 2D exports. -/
def run_xshape2d (env : Shape2dEnv) : Except Err Bool × List Event :=
  match env.obj with
  | none => (Except.error (Err.logicError "xcsg tree contains no data. "), [])
  | some obj =>
    if obj.nbool > env.maxBool then
      (Except.error (Err.logicError (budget_error_msg env.maxBool)), [])
    else
      match env.clipperResult with
      | Except.error e => (Except.error e, [Event.boolKernel2D])
      | Except.ok polyset =>
        match exports2d env polyset with
        | (Except.error e, evs) => (Except.error e, Event.boolKernel2D :: evs)
        | (Except.ok _, evs) => (Except.ok true, Event.boolKernel2D :: evs)

/-- A child node of the scene root as `run` inspects it: attribute-node test
and the factory's `is_solid` / `is_shape2d` classification; `id` identifies
the child. -/
structure XmlChild where
  id : Nat
  is_attribute : Bool
  is_solid : Bool
  is_shape2d : Bool
deriving DecidableEq, Repr

/-- The root node of the parsed XML tree: its tag and ordered children. -/
structure RootNode where
  tag : String
  children : List XmlChild
deriving DecidableEq, Repr

/-- Environment of `run`: command line, filesystem, the OpenSCAD `.csg`
conversion, XML reading, and the outcome of processing a classified child
(the bodies of `run_xsolid` / `run_xshape2d` are modelled separately). -/
structure RunEnv where
  parsed_ok : Bool
  counts : String → Nat
  get_file : Except String String
  exists_file : String → Bool
  getExt : String → String
  convertedPath : String → String
  read_xml : String → Bool
  get_root : String → Option RootNode
  solidRun : XmlChild → Except Err Bool
  shape2dRun : XmlChild → Except Err Bool

/-- `std::replace(xcsg_file.begin(), xcsg_file.end(), char(92), char(47))`
at xcsg_main.cpp:68: replace every backslash with a forward slash. -/
def normalize_path (s : String) : String :=
  String.mk (s.data.map (fun c => if c = '\\' then '/' else c))

/-- The path `run` reads the XML tree from: if the (normalized) input file
has extension `.csg` it is first converted and re-serialized under the
`.xcsg` extension (xcsg_main.cpp:84-94). -/
def effective_path (env : RunEnv) (f : String) : String :=
  if env.getExt f = ".csg" then env.convertedPath f else f

/-- The child loop of `run` (xcsg_main.cpp:107-121): skip attribute nodes,
process the first child classified solid or shape2d, and stop (the
`if(icount > 0) break`) right after the first successful processing. -/
def processChildren (solidRun shape2dRun : XmlChild → Except Err Bool) :
    List XmlChild → Except Err Unit × List Event
  | [] => (Except.ok (), [])
  | c :: rest =>
    if c.is_attribute then processChildren solidRun shape2dRun rest
    else if c.is_solid then
      match solidRun c with
      | Except.error e => (Except.error e, [Event.procSolid c.id])
      | Except.ok _ => (Except.ok (), [Event.procSolid c.id])
    else if c.is_shape2d then
      match shape2dRun c with
      | Except.error e => (Except.error e, [Event.procShape2d c.id])
      | Except.ok _ => (Except.ok (), [Event.procShape2d c.id])
    else processChildren solidRun shape2dRun rest

/-- `xcsg_main::run` (xcsg_main.cpp:57-129): command-line checks, backslash
normalization, existence check, optional `.csg` conversion, XML read, root
tag check, and the first-classified-child loop.  Every fall-through path
after the existence check returns `true`. -/
def run (env : RunEnv) : Except Err Bool × List Event :=
  if !env.parsed_ok then (Except.ok false, [])
  else if env.counts "xcsg-file" = 0 then (Except.ok false, [])
  else
    match env.get_file with
    | Except.error ex =>
      (Except.error
        (Err.logicError ("xcsg  command line processing error: " ++ ex ++ ", please report. ")), [])
    | Except.ok raw =>
      let xf := normalize_path raw
      if !env.exists_file xf then
        (Except.error (Err.runtimeError ("File does not exist: " ++ xf)),
          [Event.existsCheck xf])
      else
        let xf2 := effective_path env xf
        if env.read_xml xf2 then
          match env.get_root xf2 with
          | some root =>
            if root.tag = "xcsg" then
              match processChildren env.solidRun env.shape2dRun root.children with
              | (Except.error e, evs) =>
                (Except.error e, Event.existsCheck xf :: Event.readXml xf2 :: evs)
              | (Except.ok _, evs) =>
                (Except.ok true, Event.existsCheck xf :: Event.readXml xf2 :: evs)
            else (Except.ok true, [Event.existsCheck xf, Event.readXml xf2])
          | none => (Except.ok true, [Event.existsCheck xf, Event.readXml xf2])
        else (Except.ok true, [Event.existsCheck xf, Event.readXml xf2])

/-- The first child of the root that is not an attribute node and is
classified solid or shape2d — the one child `run` processes. -/
def firstActionable (children : List XmlChild) : Option XmlChild :=
  children.find? (fun c => !c.is_attribute && (c.is_solid || c.is_shape2d))

/-- The format of an export event, if any. -/
def fmtOf : Event → Option Fmt
  | Event.export3d f _ => some f
  | Event.export2d f _ => some f
  | _ => none

/-- The sequence of export formats actually written, in trace order. -/
def exportFmts (evs : List Event) : List Fmt :=
  evs.filterMap fmtOf

/-- The fixed 3D export order of xcsg_main.cpp:209-215 restricted to the
enabled flags: csg, amf, obj, off, then one STL variant (binary preferred). -/
def expected3d (counts : String → Nat) : List Fmt :=
  (if counts "csg" > 0 then [Fmt.csg] else []) ++
  (if counts "amf" > 0 then [Fmt.amf] else []) ++
  (if counts "obj" > 0 then [Fmt.obj] else []) ++
  (if counts "off" > 0 then [Fmt.off] else []) ++
  (if counts "stl" > 0 then [Fmt.stl_bin]
   else if counts "astl" > 0 then [Fmt.stl_ascii] else [])

/-- The fixed 2D export order of xcsg_main.cpp:252-272 restricted to the
enabled flags: csg, svg, dxf. -/
def expected2d (counts : String → Nat) : List Fmt :=
  (if counts "csg" > 0 then [Fmt.csg] else []) ++
  (if counts "svg" > 0 then [Fmt.svg] else []) ++
  (if counts "dxf" > 0 then [Fmt.dxf] else [])

/-- Whether an event is a call into one of the geometry kernels. -/
def isKernelCall : Event → Bool
  | Event.boolKernel3D => true
  | Event.boolKernel2D => true
  | Event.triKernel => true
  | _ => false

/-- Whether an `Except` value is a success. -/
def isOkE {α : Type} : Except Err α → Bool
  | Except.ok _ => true
  | Except.error _ => false

/-- The payload of a successful triangulation result (default `[]`). -/
def getOk : Except Err (List Face) → List Face
  | Except.ok v => v
  | Except.error _ => []

/-- The combined polyset accumulated by the triangulation gate: per lump,
either the triangulated faces or the original face set. -/
def combinedPolyset (env : SolidEnv) : List (List Face) :=
  env.manifolds.map (fun p =>
    if num_non_tri p > 0 then getOk (env.triangulateFn p) else p.faces)

/-- The triangulation-kernel events of the lump loop: one per lump that
needs triangulation. -/
def lumpEvents (env : SolidEnv) : List Event :=
  (env.manifolds.filter (fun p => num_non_tri p > 0)).map (fun _ => Event.triKernel)

/-! ### Helper lemmas shared by the claim theorems -/

theorem eq_ok_getOk {x : Except Err (List Face)} (h : isOkE x = true) :
    x = Except.ok (getOk x) := by
  cases x with
  | ok v => rfl
  | error e => simp [isOkE] at h

theorem processChildren_snd (sr s2r : XmlChild → Except Err Bool)
    (children : List XmlChild) :
    (processChildren sr s2r children).2 =
      (firstActionable children).elim []
        (fun c => [if c.is_solid then Event.procSolid c.id else Event.procShape2d c.id]) := by
  induction children with
  | nil => rfl
  | cons c rest ih =>
    by_cases ha : c.is_attribute = true
    · have hfa : firstActionable (c :: rest) = firstActionable rest := by
        unfold firstActionable
        rw [List.find?_cons_of_neg]
        simp [ha]
      rw [hfa, ← ih]
      simp [processChildren, ha]
    · by_cases hs : c.is_solid = true
      · have hfa : firstActionable (c :: rest) = some c := by
          unfold firstActionable
          rw [List.find?_cons_of_pos]
          simp [ha, hs]
        rw [hfa]
        cases hsr : sr c <;> simp [processChildren, ha, hs, hsr]
      · by_cases h2 : c.is_shape2d = true
        · have hfa : firstActionable (c :: rest) = some c := by
            unfold firstActionable
            rw [List.find?_cons_of_pos]
            simp [ha, hs, h2]
          rw [hfa]
          cases hsr : s2r c <;> simp [processChildren, ha, hs, h2, hsr]
        · have hfa : firstActionable (c :: rest) = firstActionable rest := by
            unfold firstActionable
            rw [List.find?_cons_of_neg]
            simp [ha, hs, h2]
          rw [hfa, ← ih]
          simp [processChildren, ha, hs, h2]

theorem processChildren_fst (sr s2r : XmlChild → Except Err Bool)
    (children : List XmlChild) :
    (processChildren sr s2r children).1 =
      (firstActionable children).elim (Except.ok ())
        (fun c => if c.is_solid then (sr c).map (fun _ => ())
                  else (s2r c).map (fun _ => ())) := by
  induction children with
  | nil => rfl
  | cons c rest ih =>
    by_cases ha : c.is_attribute = true
    · have hfa : firstActionable (c :: rest) = firstActionable rest := by
        unfold firstActionable
        rw [List.find?_cons_of_neg]
        simp [ha]
      rw [hfa, ← ih]
      simp [processChildren, ha]
    · by_cases hs : c.is_solid = true
      · have hfa : firstActionable (c :: rest) = some c := by
          unfold firstActionable
          rw [List.find?_cons_of_pos]
          simp [ha, hs]
        rw [hfa]
        cases hsr : sr c <;> simp [processChildren, ha, hs, hsr, Except.map]
      · by_cases h2 : c.is_shape2d = true
        · have hfa : firstActionable (c :: rest) = some c := by
            unfold firstActionable
            rw [List.find?_cons_of_pos]
            simp [ha, hs, h2]
          rw [hfa]
          cases hsr : s2r c <;> simp [processChildren, ha, hs, h2, hsr, Except.map]
        · have hfa : firstActionable (c :: rest) = firstActionable rest := by
            unfold firstActionable
            rw [List.find?_cons_of_neg]
            simp [ha, hs, h2]
          rw [hfa, ← ih]
          simp [processChildren, ha, hs, h2]

theorem processLumps_eq (tri : Poly → Except Err (List Face)) (t : Poly → List Face)
    (ht : ∀ p, tri p = Except.ok (t p)) (polys : List Poly) :
    processLumps tri polys =
      (Except.ok (polys.map (fun p => if num_non_tri p > 0 then t p else p.faces)),
       (polys.filter (fun p => num_non_tri p > 0)).map (fun _ => Event.triKernel)) := by
  induction polys with
  | nil => rfl
  | cons p rest ih =>
    by_cases hn : num_non_tri p > 0
    · simp [processLumps, hn, ht p, ih, Except.map, List.filter_cons]
    · simp [processLumps, hn, ih, Except.map, List.filter_cons]

theorem processLumps_events (tri : Poly → Except Err (List Face)) (polys : List Poly) :
    ∀ ev ∈ (processLumps tri polys).2, ev = Event.triKernel := by
  induction polys with
  | nil => intro ev h; simp [processLumps] at h
  | cons p rest ih =>
    intro ev h
    by_cases hn : num_non_tri p > 0
    · cases htri : tri p with
      | error e =>
        simp [processLumps, hn, htri] at h
        exact h
      | ok tf =>
        simp only [processLumps, if_pos hn, htri, List.mem_cons] at h
        rcases h with h | h
        · exact h
        · exact ih ev h
    · simp only [processLumps, if_neg hn] at h
      exact ih ev h

theorem seqE_snd_mem {a : Except Err Unit × List Event}
    {b : Unit → Except Err Unit × List Event} {ev : Event}
    (h : ev ∈ (seqE a b).2) : ev ∈ a.2 ∨ ev ∈ (b ()).2 := by
  rcases a with ⟨r, evs⟩
  cases r with
  | error e => exact Or.inl h
  | ok v =>
    simp only [seqE] at h
    rcases List.mem_append.mp h with h | h
    · exact Or.inl h
    · exact Or.inr h

theorem writeIf3d_mem {b : Bool} {fmt : Fmt}
    {w : Fmt → List (List Face) → Except Err String} {mesh : List (List Face)}
    {ev : Event} (h : ev ∈ (writeIf3d b fmt w mesh).2) :
    ev = Event.export3d fmt mesh := by
  cases b with
  | false => simp [writeIf3d] at h
  | true =>
    simp only [writeIf3d, if_pos] at h
    cases hw : w fmt mesh <;> rw [hw] at h <;> simpa using h

theorem writeIf3d_ok {fmt : Fmt} {w : Fmt → List (List Face) → Except Err String}
    {mesh : List (List Face)} (b : Bool) (hw : isOkE (w fmt mesh) = true) :
    writeIf3d b fmt w mesh =
      (Except.ok (), if b then [Event.export3d fmt mesh] else []) := by
  cases b with
  | false => rfl
  | true =>
    cases hwv : w fmt mesh with
    | ok s => simp [writeIf3d, hwv]
    | error e => rw [hwv] at hw; simp [isOkE] at hw

theorem writeIf2d_mem {b : Bool} {fmt : Fmt}
    {w : Fmt → List Polygon2d → Except Err String} {ps : List Polygon2d}
    {ev : Event} (h : ev ∈ (writeIf2d b fmt w ps).2) :
    ev = Event.export2d fmt ps := by
  cases b with
  | false => simp [writeIf2d] at h
  | true =>
    simp only [writeIf2d, if_pos] at h
    cases hw : w fmt ps <;> rw [hw] at h <;> simpa using h

theorem writeIf2d_ok {fmt : Fmt} {w : Fmt → List Polygon2d → Except Err String}
    {ps : List Polygon2d} (b : Bool) (hw : isOkE (w fmt ps) = true) :
    writeIf2d b fmt w ps =
      (Except.ok (), if b then [Event.export2d fmt ps] else []) := by
  cases b with
  | false => rfl
  | true =>
    cases hwv : w fmt ps with
    | ok s => simp [writeIf2d, hwv]
    | error e => rw [hwv] at hw; simp [isOkE] at hw

theorem exports3d_eq (env : SolidEnv) (mesh : List (List Face))
    (hw : ∀ f m, isOkE (env.write3d f m) = true) :
    exports3d env mesh =
      (Except.ok (), (expected3d env.counts).map (fun f => Event.export3d f mesh)) := by
  unfold exports3d expected3d
  rw [writeIf3d_ok _ (hw Fmt.csg mesh), writeIf3d_ok _ (hw Fmt.amf mesh),
      writeIf3d_ok _ (hw Fmt.obj mesh), writeIf3d_ok _ (hw Fmt.off mesh)]
  by_cases hstl : env.counts "stl" > 0
  · rw [if_pos hstl, writeIf3d_ok _ (hw Fmt.stl_bin mesh)]
    simp [seqE, hstl]
    split_ifs <;> simp
  · rw [if_neg hstl]
    by_cases hastl : env.counts "astl" > 0
    · rw [if_pos hastl, writeIf3d_ok _ (hw Fmt.stl_ascii mesh)]
      simp only [if_neg hstl, if_pos hastl]
      simp [seqE]
      split_ifs <;> simp
    · rw [if_neg hastl]
      simp only [if_neg hstl, if_neg hastl]
      simp [seqE]
      split_ifs <;> simp

theorem exports3d_mem {env : SolidEnv} {mesh : List (List Face)}
    {fmt : Fmt} {mesh' : List (List Face)}
    (h : Event.export3d fmt mesh' ∈ (exports3d env mesh).2) : mesh' = mesh := by
  unfold exports3d at h
  rcases seqE_snd_mem h with h | h
  · cases writeIf3d_mem h; rfl
  rcases seqE_snd_mem h with h | h
  · cases writeIf3d_mem h; rfl
  rcases seqE_snd_mem h with h | h
  · cases writeIf3d_mem h; rfl
  rcases seqE_snd_mem h with h | h
  · cases writeIf3d_mem h; rfl
  by_cases hstl : env.counts "stl" > 0
  · rw [if_pos hstl] at h
    cases writeIf3d_mem h; rfl
  · rw [if_neg hstl] at h
    by_cases hastl : env.counts "astl" > 0
    · rw [if_pos hastl] at h
      cases writeIf3d_mem h; rfl
    · rw [if_neg hastl] at h
      simp at h

theorem exports2d_eq (env : Shape2dEnv) (ps : List Polygon2d)
    (hw : ∀ f p, isOkE (env.write2d f p) = true) :
    exports2d env ps =
      (Except.ok (), (expected2d env.counts).map (fun f => Event.export2d f ps)) := by
  unfold exports2d expected2d
  rw [writeIf2d_ok _ (hw Fmt.csg ps), writeIf2d_ok _ (hw Fmt.svg ps),
      writeIf2d_ok _ (hw Fmt.dxf ps)]
  simp [seqE]
  split_ifs <;> simp

theorem run_xsolid_ok_eq (env : SolidEnv) (o : SolidObj)
    (h1 : env.obj = some o) (h2 : ¬ o.nbool > env.maxBool)
    (h3 : env.computeResult = Except.ok ())
    (ht : ∀ p, isOkE (env.triangulateFn p) = true)
    (hw : ∀ f m, isOkE (env.write3d f m) = true) :
    run_xsolid env =
      (Except.ok true,
        [Event.boolKernel3D] ++ lumpEvents env ++ [Event.exportPhase]
          ++ (expected3d env.counts).map
              (fun f => Event.export3d f (combinedPolyset env))) := by
  have hpl := processLumps_eq env.triangulateFn (fun p => getOk (env.triangulateFn p))
      (fun p => eq_ok_getOk (ht p)) env.manifolds
  simp only [run_xsolid, h1, h3, if_neg h2]
  rw [hpl]
  simp only []
  rw [exports3d_eq env _ hw]
  simp [combinedPolyset, lumpEvents]

theorem run_xsolid_carve_eq (env : SolidEnv) (o : SolidObj) (m : String)
    (h1 : env.obj = some o) (h2 : ¬ o.nbool > env.maxBool)
    (h3 : env.computeResult = Except.error (Err.carve m))
    (ht : ∀ p, isOkE (env.triangulateFn p) = true)
    (hw : ∀ f mm, isOkE (env.write3d f mm) = true) :
    run_xsolid env =
      (Except.ok true,
        [Event.boolKernel3D, Event.warn ("(carve error): " ++ m)]
          ++ lumpEvents env ++ [Event.exportPhase]
          ++ (expected3d env.counts).map
              (fun f => Event.export3d f (combinedPolyset env))) := by
  have hpl := processLumps_eq env.triangulateFn (fun p => getOk (env.triangulateFn p))
      (fun p => eq_ok_getOk (ht p)) env.manifolds
  simp only [run_xsolid, h1, h3, if_neg h2]
  rw [hpl]
  simp only []
  rw [exports3d_eq env _ hw]
  simp [combinedPolyset, lumpEvents]

theorem run_xsolid_propagates (env : SolidEnv) (o : SolidObj) (e : Err)
    (h1 : env.obj = some o) (h2 : ¬ o.nbool > env.maxBool)
    (h3 : env.computeResult = Except.error e) (hnc : ∀ m, e ≠ Err.carve m) :
    run_xsolid env = (Except.error e, [Event.boolKernel3D]) := by
  cases e with
  | carve m => exact absurd rfl (hnc m)
  | logicError m => simp [run_xsolid, h1, h3, if_neg h2]
  | runtimeError m => simp [run_xsolid, h1, h3, if_neg h2]
  | other m => simp [run_xsolid, h1, h3, if_neg h2]

theorem run_xsolid_tri_propagates (env : SolidEnv) (o : SolidObj) (e : Err)
    (evs : List Event)
    (h1 : env.obj = some o) (h2 : ¬ o.nbool > env.maxBool)
    (h3 : env.computeResult = Except.ok ())
    (h4 : processLumps env.triangulateFn env.manifolds = (Except.error e, evs)) :
    (run_xsolid env).1 = Except.error e := by
  simp only [run_xsolid, h1, h3, if_neg h2]
  rw [h4]

theorem run_xshape2d_ok_eq (env : Shape2dEnv) (o : Shape2dObj) (ps : List Polygon2d)
    (h1 : env.obj = some o) (h2 : ¬ o.nbool > env.maxBool)
    (h3 : env.clipperResult = Except.ok ps)
    (hw : ∀ f p, isOkE (env.write2d f p) = true) :
    run_xshape2d env =
      (Except.ok true,
        Event.boolKernel2D ::
          (expected2d env.counts).map (fun f => Event.export2d f ps)) := by
  simp only [run_xshape2d, h1, h3, if_neg h2]
  rw [exports2d_eq env ps hw]

theorem run_xshape2d_propagates (env : Shape2dEnv) (o : Shape2dObj) (e : Err)
    (h1 : env.obj = some o) (h2 : ¬ o.nbool > env.maxBool)
    (h3 : env.clipperResult = Except.error e) :
    run_xshape2d env = (Except.error e, [Event.boolKernel2D]) := by
  simp [run_xshape2d, h1, h3, if_neg h2]

theorem export3d_mem_run_xsolid {env : SolidEnv} {fmt : Fmt}
    {mesh : List (List Face)}
    (h : Event.export3d fmt mesh ∈ (run_xsolid env).2) :
    ∃ ps, (processLumps env.triangulateFn env.manifolds).1 = Except.ok ps
      ∧ mesh = ps := by
  unfold run_xsolid at h
  cases hobj : env.obj with
  | none => rw [hobj] at h; simp at h
  | some o =>
    rw [hobj] at h
    simp only [] at h
    by_cases hb : o.nbool > env.maxBool
    · rw [if_pos hb] at h; simp at h
    · rw [if_neg hb] at h
      have hstep :
          ∀ evs0 : List Event, (∀ ev ∈ evs0, fmtOf ev = none) →
          Event.export3d fmt mesh ∈
            (match processLumps env.triangulateFn env.manifolds with
             | (Except.error e, evs2) => (Except.error e, evs0 ++ evs2)
             | (Except.ok polyset, evs2) =>
               match exports3d env polyset with
               | (Except.error e, evs4) =>
                 (Except.error e, evs0 ++ evs2 ++ [Event.exportPhase] ++ evs4)
               | (Except.ok _, evs4) =>
                 (Except.ok true, evs0 ++ evs2 ++ [Event.exportPhase] ++ evs4) :
             Except Err Bool × List Event).2 →
          ∃ ps, (processLumps env.triangulateFn env.manifolds).1 = Except.ok ps
            ∧ mesh = ps := by
        intro evs0 h0 hm
        rcases hpl : processLumps env.triangulateFn env.manifolds with ⟨r, evs2⟩
        rw [hpl] at hm
        have hevs2 : ∀ ev ∈ evs2, ev = Event.triKernel := by
          intro ev hev
          have := processLumps_events env.triangulateFn env.manifolds ev
          rw [hpl] at this
          exact this hev
        cases r with
        | error e =>
          simp only [] at hm
          simp only [List.mem_append] at hm
          rcases hm with hm | hm
          · have := h0 _ hm; simp [fmtOf] at this
          · have := hevs2 _ hm; simp at this
        | ok ps =>
          simp only [] at hm
          rcases hex : exports3d env ps with ⟨re, evs4⟩
          rw [hex] at hm
          have hmem : Event.export3d fmt mesh ∈ evs0 ++ evs2 ++ [Event.exportPhase] ++ evs4 := by
            cases re <;> simpa using hm
          simp only [List.mem_append, List.mem_singleton] at hmem
          rcases hmem with ((hm1 | hm2) | hm3) | hm4
          · have := h0 _ hm1; simp [fmtOf] at this
          · have := hevs2 _ hm2; simp at this
          · simp at hm3
          · refine ⟨ps, rfl, ?_⟩
            have : Event.export3d fmt mesh ∈ (exports3d env ps).2 := by
              rw [hex]; exact hm4
            exact exports3d_mem this
      cases hcr : env.computeResult with
      | ok v =>
        rw [hcr] at h
        exact hstep [Event.boolKernel3D] (by intro ev hev; simp at hev; subst hev; rfl) h
      | error e =>
        cases e with
        | carve m =>
          rw [hcr] at h
          refine hstep [Event.boolKernel3D, Event.warn ("(carve error): " ++ m)] ?_ h
          intro ev hev
          simp only [List.mem_cons, List.not_mem_nil, or_false] at hev
          rcases hev with hev | hev <;> subst hev <;> rfl
        | logicError m => rw [hcr] at h; simp at h
        | runtimeError m => rw [hcr] at h; simp at h
        | other m => rw [hcr] at h; simp at h

theorem normalize_path_no_backslash (s : String) :
    ∀ c ∈ (normalize_path s).data, c ≠ '\\' := by
  intro c hc
  have hc' : c ∈ s.data.map (fun c => if c = '\\' then '/' else c) := hc
  rcases List.mem_map.mp hc' with ⟨c0, _, rfl⟩
  by_cases h : c0 = '\\'
  · subst h; decide
  · rw [if_neg h]; exact h

theorem run_no_actionable_ok (env : RunEnv) (raw : String)
    (hp : env.parsed_ok = true) (hc : ¬ env.counts "xcsg-file" = 0)
    (hg : env.get_file = Except.ok raw)
    (he : env.exists_file (normalize_path raw) = true)
    (hdisj :
      env.read_xml (effective_path env (normalize_path raw)) = false
      ∨ env.get_root (effective_path env (normalize_path raw)) = none
      ∨ ∃ r, env.get_root (effective_path env (normalize_path raw)) = some r
          ∧ (¬ r.tag = "xcsg" ∨ firstActionable r.children = none)) :
    (run env).1 = Except.ok true := by
  rcases hdisj with hd | hd | ⟨r, hr, hd⟩
  · simp [run, hp, hg, he, hc, hd]
  · cases hread : env.read_xml (effective_path env (normalize_path raw)) with
    | false => simp [run, hp, hg, he, hc, hread]
    | true => simp [run, hp, hg, he, hc, hread, hd]
  · cases hread : env.read_xml (effective_path env (normalize_path raw)) with
    | false => simp [run, hp, hg, he, hc, hread]
    | true =>
      rcases hd with hd | hd
      · simp [run, hp, hg, he, hc, hread, hr, hd]
      · have hfst := processChildren_fst env.solidRun env.shape2dRun r.children
        rw [hd] at hfst
        rcases hpc : processChildren env.solidRun env.shape2dRun r.children with ⟨pr, pevs⟩
        rw [hpc] at hfst
        simp only [Option.elim] at hfst
        simp [run, hp, hg, he, hc, hread, hr, hpc, hfst]
        split <;> rfl

theorem run_existsCheck_eq (env : RunEnv) (raw : String)
    (hg : env.get_file = Except.ok raw) :
    ∀ p, Event.existsCheck p ∈ (run env).2 → p = normalize_path raw := by
  intro p hmem
  cases hp : env.parsed_ok with
  | false => simp [run, hp] at hmem
  | true =>
    by_cases hc : env.counts "xcsg-file" = 0
    · simp [run, hp, hc] at hmem
    · cases hex : env.exists_file (normalize_path raw) with
      | false => simp [run, hp, hc, hg, hex] at hmem; exact hmem
      | true =>
        cases hread : env.read_xml (effective_path env (normalize_path raw)) with
        | false =>
          simp [run, hp, hc, hg, hex, hread] at hmem
          exact hmem
        | true =>
          cases hroot : env.get_root (effective_path env (normalize_path raw)) with
          | none =>
            simp [run, hp, hc, hg, hex, hread, hroot] at hmem
            exact hmem
          | some r =>
            by_cases htag : r.tag = "xcsg"
            · have hsnd := processChildren_snd env.solidRun env.shape2dRun r.children
              rcases hpc : processChildren env.solidRun env.shape2dRun r.children with ⟨pr, pevs⟩
              rw [hpc] at hsnd
              simp only [] at hsnd
              have hpevs : ∀ ev ∈ pevs,
                  (∃ i, ev = Event.procSolid i) ∨ (∃ i, ev = Event.procShape2d i) := by
                intro ev hq
                rw [hsnd] at hq
                cases hfa : firstActionable r.children with
                | none => rw [hfa] at hq; simp at hq
                | some c =>
                  rw [hfa] at hq
                  simp only [Option.elim, List.mem_singleton] at hq
                  by_cases hs : c.is_solid = true
                  · rw [if_pos hs] at hq; exact Or.inl ⟨c.id, hq⟩
                  · rw [if_neg hs] at hq; exact Or.inr ⟨c.id, hq⟩
              have heq : (run env).2 =
                  Event.existsCheck (normalize_path raw) ::
                    Event.readXml (effective_path env (normalize_path raw)) :: pevs := by
                cases pr <;> simp [run, hp, hc, hg, hex, hread, hroot, htag, hpc]
              rw [heq] at hmem
              simp only [List.mem_cons] at hmem
              rcases hmem with hmem | hmem | hmem
              · simpa using hmem
              · simp at hmem
              · rcases hpevs _ hmem with ⟨i, hi⟩ | ⟨i, hi⟩ <;> simp at hi
            · simp [run, hp, hc, hg, hex, hread, hroot, htag] at hmem
              exact hmem

theorem run_readXml_eq (env : RunEnv) (raw : String)
    (hg : env.get_file = Except.ok raw) :
    ∀ p, Event.readXml p ∈ (run env).2 →
      p = effective_path env (normalize_path raw) := by
  intro p hmem
  cases hp : env.parsed_ok with
  | false => simp [run, hp] at hmem
  | true =>
    by_cases hc : env.counts "xcsg-file" = 0
    · simp [run, hp, hc] at hmem
    · cases hex : env.exists_file (normalize_path raw) with
      | false => simp [run, hp, hc, hg, hex] at hmem
      | true =>
        cases hread : env.read_xml (effective_path env (normalize_path raw)) with
        | false =>
          simp [run, hp, hc, hg, hex, hread] at hmem
          exact hmem
        | true =>
          cases hroot : env.get_root (effective_path env (normalize_path raw)) with
          | none =>
            simp [run, hp, hc, hg, hex, hread, hroot] at hmem
            exact hmem
          | some r =>
            by_cases htag : r.tag = "xcsg"
            · have hsnd := processChildren_snd env.solidRun env.shape2dRun r.children
              rcases hpc : processChildren env.solidRun env.shape2dRun r.children with ⟨pr, pevs⟩
              rw [hpc] at hsnd
              simp only [] at hsnd
              have hpevs : ∀ ev ∈ pevs,
                  (∃ i, ev = Event.procSolid i) ∨ (∃ i, ev = Event.procShape2d i) := by
                intro ev hq
                rw [hsnd] at hq
                cases hfa : firstActionable r.children with
                | none => rw [hfa] at hq; simp at hq
                | some c =>
                  rw [hfa] at hq
                  simp only [Option.elim, List.mem_singleton] at hq
                  by_cases hs : c.is_solid = true
                  · rw [if_pos hs] at hq; exact Or.inl ⟨c.id, hq⟩
                  · rw [if_neg hs] at hq; exact Or.inr ⟨c.id, hq⟩
              have heq : (run env).2 =
                  Event.existsCheck (normalize_path raw) ::
                    Event.readXml (effective_path env (normalize_path raw)) :: pevs := by
                cases pr <;> simp [run, hp, hc, hg, hex, hread, hroot, htag, hpc]
              rw [heq] at hmem
              simp only [List.mem_cons] at hmem
              rcases hmem with hmem | hmem | hmem
              · simp at hmem
              · simpa using hmem
              · rcases hpevs _ hmem with ⟨i, hi⟩ | ⟨i, hi⟩ <;> simp at hi
            · simp [run, hp, hc, hg, hex, hread, hroot, htag] at hmem
              exact hmem

theorem filterMap_fmtOf_export3d (l : List Fmt) (mesh : List (List Face)) :
    List.filterMap fmtOf (l.map (fun f => Event.export3d f mesh)) = l := by
  induction l with
  | nil => rfl
  | cons f rest ih => simp [fmtOf, ih]

theorem filterMap_fmtOf_export2d (l : List Fmt) (ps : List Polygon2d) :
    List.filterMap fmtOf (l.map (fun f => Event.export2d f ps)) = l := by
  induction l with
  | nil => rfl
  | cons f rest ih => simp [fmtOf, ih]

theorem filterMap_fmtOf_tri {α : Type} (l : List α) :
    List.filterMap fmtOf (l.map (fun _ => Event.triKernel)) = [] := by
  induction l with
  | nil => rfl
  | cons f rest ih => simp [fmtOf, ih]

/-! ### Claim theorems -/

/-- C1: when the 3D boolean kernel raises its kernel-specific geometric error
(`carve::exception`) during reduction, `run_xsolid` does not abort: the error
is caught and surfaced as a warning, processing continues through manifold
extraction, the triangulation gate and the export block with whatever partial
accumulation `manifolds` holds (possibly zero lumps), the export dispatcher
is reached, and the function returns success. -/
theorem C1_carve_error_recovered (env : SolidEnv) (o : SolidObj) (m : String)
    (h1 : env.obj = some o) (h2 : ¬ o.nbool > env.maxBool)
    (h3 : env.computeResult = Except.error (Err.carve m))
    (ht : ∀ p, isOkE (env.triangulateFn p) = true)
    (hw : ∀ f mm, isOkE (env.write3d f mm) = true) :
    (run_xsolid env).1 = Except.ok true
    ∧ Event.warn ("(carve error): " ++ m) ∈ (run_xsolid env).2
    ∧ Event.exportPhase ∈ (run_xsolid env).2 := by
  have h := run_xsolid_carve_eq env o m h1 h2 h3 ht hw
  rw [h]
  refine ⟨rfl, ?_, ?_⟩ <;> simp

def envC1 : SolidEnv :=
  { counts := fun _ => 0, maxBool := 10, obj := some ⟨2⟩,
    computeResult := Except.error (Err.carve "bad geometry"),
    manifolds := [], triangulateFn := fun _ => Except.ok [],
    write3d := fun _ _ => Except.ok "out" }

/-- C1 witness: a concrete solid run whose carve reduction fails with a
geometric error and whose accumulator holds zero lumps still reaches the
export phase and returns success. -/
theorem C1_witness :
    (run_xsolid envC1).1 = Except.ok true
    ∧ Event.warn ("(carve error): " ++ "bad geometry") ∈ (run_xsolid envC1).2
    ∧ Event.exportPhase ∈ (run_xsolid envC1).2 :=
  C1_carve_error_recovered envC1 ⟨2⟩ "bad geometry" rfl (by decide) rfl
    (fun _ => rfl) (fun _ _ => rfl)

/-- C2: on both the solid and the shape2d path, a node whose model graph
reports `nbool` strictly greater than the configured ceiling makes the
pipeline throw the budget `logic_error` with an empty event trace: no
boolean-kernel (or any other) call is ever made for that node. -/
theorem C2_budget_blocks_kernel (e3 : SolidEnv) (o3 : SolidObj)
    (h3 : e3.obj = some o3) (hb3 : o3.nbool > e3.maxBool)
    (e2 : Shape2dEnv) (o2 : Shape2dObj)
    (h2 : e2.obj = some o2) (hb2 : o2.nbool > e2.maxBool) :
    run_xsolid e3 = (Except.error (Err.logicError (budget_error_msg e3.maxBool)), [])
    ∧ run_xshape2d e2 =
        (Except.error (Err.logicError (budget_error_msg e2.maxBool)), []) := by
  constructor
  · simp [run_xsolid, h3, if_pos hb3]
  · simp [run_xshape2d, h2, if_pos hb2]

def envC2s : SolidEnv :=
  { counts := fun _ => 0, maxBool := 3, obj := some ⟨4⟩,
    computeResult := Except.ok (), manifolds := [],
    triangulateFn := fun _ => Except.ok [], write3d := fun _ _ => Except.ok "" }

def envC2p : Shape2dEnv :=
  { counts := fun _ => 0, maxBool := 3, obj := some ⟨4⟩,
    clipperResult := Except.ok [], write2d := fun _ _ => Except.ok "" }

/-- C2 witness: with ceiling 3 and a tree reporting 4 boolean operations,
both paths throw before any kernel event is emitted. -/
theorem C2_witness :
    run_xsolid envC2s = (Except.error (Err.logicError (budget_error_msg envC2s.maxBool)), [])
    ∧ run_xshape2d envC2p =
        (Except.error (Err.logicError (budget_error_msg envC2p.maxBool)), []) :=
  C2_budget_blocks_kernel envC2s ⟨4⟩ rfl (by decide) envC2p ⟨4⟩ rfl (by decide)

/-- C3: the root child loop processes exactly the first non-attribute child
classified Solid or Shape2D — via the solid path when `is_solid`, else the 2D
path — and stops right after it; every later child is ignored, so at most one
processing event occurs, and the loop's outcome is that one child's outcome. -/
theorem C3_first_actionable_only (sr s2r : XmlChild → Except Err Bool)
    (children : List XmlChild) :
    (processChildren sr s2r children).2 =
      (firstActionable children).elim []
        (fun c => [if c.is_solid then Event.procSolid c.id else Event.procShape2d c.id])
    ∧ (processChildren sr s2r children).1 =
      (firstActionable children).elim (Except.ok ())
        (fun c => if c.is_solid then (sr c).map (fun _ => ())
                  else (s2r c).map (fun _ => ())) :=
  ⟨processChildren_snd sr s2r children, processChildren_fst sr s2r children⟩

/-- C4: the enabled encoders run in the fixed order csg, amf, obj, off, STL
(one STL variant only, binary preferred) for 3D, and csg, svg, dxf for 2D. -/
theorem C4_export_order (e3 : SolidEnv) (o3 : SolidObj)
    (h1 : e3.obj = some o3) (h2 : ¬ o3.nbool > e3.maxBool)
    (h3 : e3.computeResult = Except.ok ())
    (ht : ∀ p, isOkE (e3.triangulateFn p) = true)
    (hw : ∀ f m, isOkE (e3.write3d f m) = true)
    (e2 : Shape2dEnv) (o2 : Shape2dObj) (ps : List Polygon2d)
    (g1 : e2.obj = some o2) (g2 : ¬ o2.nbool > e2.maxBool)
    (g3 : e2.clipperResult = Except.ok ps)
    (gw : ∀ f p, isOkE (e2.write2d f p) = true) :
    exportFmts (run_xsolid e3).2 = expected3d e3.counts
    ∧ exportFmts (run_xshape2d e2).2 = expected2d e2.counts := by
  constructor
  · rw [run_xsolid_ok_eq e3 o3 h1 h2 h3 ht hw]
    simp only [exportFmts, lumpEvents, List.filterMap_append,
      filterMap_fmtOf_export3d, filterMap_fmtOf_tri]
    simp [fmtOf]
  · rw [run_xshape2d_ok_eq e2 o2 ps g1 g2 g3 gw]
    simp only [exportFmts, List.filterMap_cons, filterMap_fmtOf_export2d]
    simp [fmtOf]

def envC4s : SolidEnv :=
  { counts := fun s => if s = "stl" then 1 else if s = "astl" then 1 else
      if s = "obj" then 1 else if s = "csg" then 1 else 0,
    maxBool := 10, obj := some ⟨0⟩,
    computeResult := Except.ok (), manifolds := [],
    triangulateFn := fun _ => Except.ok [], write3d := fun _ _ => Except.ok "" }

def envC4p : Shape2dEnv :=
  { counts := fun s => if s = "dxf" then 1 else if s = "svg" then 1 else 0,
    maxBool := 10, obj := some ⟨0⟩,
    clipperResult := Except.ok [], write2d := fun _ _ => Except.ok "" }

/-- C4 witness: with csg, obj, stl and astl enabled the 3D formats come out
as csg, obj, binary STL (ASCII suppressed); with svg and dxf enabled the 2D
formats come out as svg then dxf. -/
theorem C4_witness :
    exportFmts (run_xsolid envC4s).2 = expected3d envC4s.counts
    ∧ exportFmts (run_xshape2d envC4p).2 = expected2d envC4p.counts :=
  C4_export_order envC4s ⟨0⟩ rfl (by decide) rfl (fun _ => rfl) (fun _ _ => rfl)
    envC4p ⟨0⟩ [] rfl (by decide) rfl (fun _ _ => rfl)

/-- C5: the triangulation kernel is invoked exactly for the lumps with a
non-triangular face (`num_non_tri > 0`, i.e. some face with more than 3
vertices); other lumps pass their face sets through unchanged; every lump is
accumulated into the combined polyset, and every export event of the run
carries that one shared combined mesh. -/
theorem C5_triangulation_gate (tri : Poly → Except Err (List Face))
    (t : Poly → List Face) (ht : ∀ p, tri p = Except.ok (t p)) (polys : List Poly)
    (pw : Poly) (env : SolidEnv) (polyset : List (List Face))
    (hps : (processLumps env.triangulateFn env.manifolds).1 = Except.ok polyset)
    (fmtw : Fmt) (meshw : List (List Face))
    (hm : Event.export3d fmtw meshw ∈ (run_xsolid env).2) :
    processLumps tri polys =
      (Except.ok (polys.map (fun p => if num_non_tri p > 0 then t p else p.faces)),
       (polys.filter (fun p => num_non_tri p > 0)).map (fun _ => Event.triKernel))
    ∧ (0 < num_non_tri pw ↔ ∃ f ∈ pw.faces, 3 < f.verts.length)
    ∧ meshw = polyset := by
  refine ⟨processLumps_eq tri t ht polys, ?_, ?_⟩
  · unfold num_non_tri
    rw [List.length_pos, Ne, List.filter_eq_nil_iff]
    push_neg
    simp
  · rcases export3d_mem_run_xsolid hm with ⟨ps2, hps2, rfl⟩
    rw [hps] at hps2
    exact (Except.ok.injEq _ _).mp hps2.symm

def envC5 : SolidEnv :=
  { counts := fun s => if s = "stl" then 1 else 0,
    maxBool := 10, obj := some ⟨1⟩,
    computeResult := Except.ok (),
    manifolds := [⟨3, [⟨[0, 1, 2]⟩]⟩],
    triangulateFn := fun _ => Except.ok [], write3d := fun _ _ => Except.ok "" }

def triC5 : Poly → Except Err (List Face) := fun _ => Except.ok [⟨[0, 1, 2]⟩]

def polysC5 : List Poly := [⟨4, [⟨[0, 1, 2, 3]⟩]⟩, ⟨3, [⟨[0, 1, 2]⟩]⟩]

/-- C5 witness: a quad-faced lump triggers the triangulation kernel while an
all-triangle lump passes through unchanged, and the concrete run's single
STL export carries exactly the accumulated polyset. -/
theorem C5_witness :
    processLumps triC5 polysC5 =
      (Except.ok (polysC5.map
          (fun p => if num_non_tri p > 0 then [⟨[0, 1, 2]⟩] else p.faces)),
       (polysC5.filter (fun p => num_non_tri p > 0)).map (fun _ => Event.triKernel))
    ∧ (0 < num_non_tri ⟨4, [⟨[0, 1, 2, 3]⟩]⟩ ↔
        ∃ f ∈ (Poly.mk 4 [⟨[0, 1, 2, 3]⟩]).faces, 3 < f.verts.length)
    ∧ [[Face.mk [0, 1, 2]]] = [[Face.mk [0, 1, 2]]] :=
  C5_triangulation_gate triC5 (fun _ => [⟨[0, 1, 2]⟩]) (fun _ => rfl) polysC5
    ⟨4, [⟨[0, 1, 2, 3]⟩]⟩ envC5 [[⟨[0, 1, 2]⟩]] rfl
    Fmt.stl_bin [[⟨[0, 1, 2]⟩]] (by decide)

def envC6 : SolidEnv :=
  { counts := fun _ => 0, maxBool := 3, obj := some ⟨5⟩,
    computeResult := Except.ok (), manifolds := [],
    triangulateFn := fun _ => Except.ok [], write3d := fun _ _ => Except.ok "" }

/-- C6 counterexample: with `nbool = 5` and ceiling 3 the thrown budget
message is exactly "Max 3 boolean operations allowed in this configuration.":
it contains the ceiling "3" but not the offending count "5", so the error
report does not contain both numbers as the claim states. -/
theorem C6_counterexample :
    run_xsolid envC6 =
      (Except.error
        (Err.logicError "Max 3 boolean operations allowed in this configuration."), [])
    ∧ ¬ List.IsInfix (toString (5 : Nat)).data
        "Max 3 boolean operations allowed in this configuration.".data
    ∧ List.IsInfix (toString (3 : Nat)).data
        "Max 3 boolean operations allowed in this configuration.".data :=
  ⟨rfl, by decide, by decide⟩

/-- C6 amended: when the budget is exceeded the thrown error message contains
the configured ceiling but is a function of the ceiling alone — the offending
operation count is not part of the thrown report (it is only printed to the
console before the check). -/
theorem C6_amended (env : SolidEnv) (o : SolidObj)
    (h1 : env.obj = some o) (hb : o.nbool > env.maxBool)
    (e2 : Shape2dEnv) (o2 : Shape2dObj)
    (h2 : e2.obj = some o2) (hb2 : o2.nbool > e2.maxBool) :
    run_xsolid env = (Except.error (Err.logicError (budget_error_msg env.maxBool)), [])
    ∧ run_xshape2d e2 =
        (Except.error (Err.logicError (budget_error_msg e2.maxBool)), [])
    ∧ List.IsInfix (toString env.maxBool).data (budget_error_msg env.maxBool).data := by
  refine ⟨by simp [run_xsolid, h1, if_pos hb], by simp [run_xshape2d, h2, if_pos hb2], ?_⟩
  have hdata : (budget_error_msg env.maxBool).data =
      "Max ".data ++ (toString env.maxBool).data
        ++ " boolean operations allowed in this configuration.".data := by
    simp [budget_error_msg, String.data_append]
  rw [hdata]
  exact List.infix_append _ _ _

def envC6p : Shape2dEnv :=
  { counts := fun _ => 0, maxBool := 3, obj := some ⟨5⟩,
    clipperResult := Except.ok [], write2d := fun _ _ => Except.ok "" }

/-- C6 amended witness: the concrete over-budget runs throw the ceiling-only
message and the ceiling's digits occur in it. -/
theorem C6_witness :
    run_xsolid envC6 =
      (Except.error (Err.logicError (budget_error_msg envC6.maxBool)), [])
    ∧ run_xshape2d envC6p =
        (Except.error (Err.logicError (budget_error_msg envC6p.maxBool)), [])
    ∧ List.IsInfix (toString envC6.maxBool).data (budget_error_msg envC6.maxBool).data :=
  C6_amended envC6 ⟨5⟩ rfl (by decide) envC6p ⟨5⟩ rfl (by decide)

def envC7 : RunEnv :=
  { parsed_ok := true, counts := fun _ => 1,
    get_file := Except.ok "model.xcsg",
    exists_file := fun _ => true,
    getExt := fun _ => ".xcsg", convertedPath := fun s => s,
    read_xml := fun _ => true,
    get_root := fun _ => some ⟨"xcsg", [⟨0, false, false, false⟩]⟩,
    solidRun := fun _ => Except.ok true, shape2dRun := fun _ => Except.ok true }

/-- C7 counterexample: a well-formed command line and input whose scene root
has one child that classifies as neither solid nor shape2d — the run finishes
with `Except.ok true` and a trace holding no processing and no failure: the
condition is not reported as a build failure and the run completes as if
successful, refuting the claim. -/
theorem C7_counterexample :
    run envC7 =
      (Except.ok true,
        [Event.existsCheck "model.xcsg", Event.readXml "model.xcsg"]) := rfl

/-- C7 amended: a root with no classifiable child completes silently with
`run` returning success and no failure report; the "xcsg tree contains no
data" build failure is thrown (halting that node) only when a classified
child's factory construction yields no object. -/
theorem C7_amended (env : RunEnv) (raw : String)
    (hp : env.parsed_ok = true) (hc : ¬ env.counts "xcsg-file" = 0)
    (hg : env.get_file = Except.ok raw)
    (he : env.exists_file (normalize_path raw) = true)
    (hroot : ∃ r, env.get_root (effective_path env (normalize_path raw)) = some r
        ∧ firstActionable r.children = none)
    (senv : SolidEnv) (henv : senv.obj = none)
    (penv : Shape2dEnv) (hpenv : penv.obj = none) :
    (run env).1 = Except.ok true
    ∧ run_xsolid senv =
        (Except.error (Err.logicError "xcsg tree contains no data. "), [])
    ∧ run_xshape2d penv =
        (Except.error (Err.logicError "xcsg tree contains no data. "), []) := by
  refine ⟨?_, by simp [run_xsolid, henv], by simp [run_xshape2d, hpenv]⟩
  rcases hroot with ⟨r, hr, hfa⟩
  exact run_no_actionable_ok env raw hp hc hg he (Or.inr (Or.inr ⟨r, hr, Or.inr hfa⟩))

def envC7s : SolidEnv :=
  { counts := fun _ => 0, maxBool := 0, obj := none,
    computeResult := Except.ok (), manifolds := [],
    triangulateFn := fun _ => Except.ok [], write3d := fun _ _ => Except.ok "" }

def envC7p : Shape2dEnv :=
  { counts := fun _ => 0, maxBool := 0, obj := none,
    clipperResult := Except.ok [], write2d := fun _ _ => Except.ok "" }

/-- C7 amended witness: the concrete no-classifiable-child run returns
success, while null factory objects throw the build failure. -/
theorem C7_witness :
    (run envC7).1 = Except.ok true
    ∧ run_xsolid envC7s =
        (Except.error (Err.logicError "xcsg tree contains no data. "), [])
    ∧ run_xshape2d envC7p =
        (Except.error (Err.logicError "xcsg tree contains no data. "), []) :=
  C7_amended envC7 "model.xcsg" rfl (by decide) rfl rfl
    ⟨⟨"xcsg", [⟨0, false, false, false⟩]⟩, rfl, rfl⟩ envC7s rfl envC7p rfl

/-- C8: the 2D reduction path wraps no kernel call in a recoverable-error
boundary — a clipper failure propagates out of `run_xshape2d`, halting before
any export; on the 3D path only the carve exception class is downgraded: any
other compute failure propagates, and a triangulation failure after a
successful reduction propagates as well. -/
theorem C8_no_2d_recovery (e2 : Shape2dEnv) (o2 : Shape2dObj) (err2 : Err)
    (h1 : e2.obj = some o2) (h2 : ¬ o2.nbool > e2.maxBool)
    (h3 : e2.clipperResult = Except.error err2)
    (e3 : SolidEnv) (o3 : SolidObj) (err3 : Err)
    (g1 : e3.obj = some o3) (g2 : ¬ o3.nbool > e3.maxBool)
    (g3 : e3.computeResult = Except.error err3) (g4 : ∀ m, err3 ≠ Err.carve m)
    (e4 : SolidEnv) (o4 : SolidObj) (err4 : Err) (evs4 : List Event)
    (k1 : e4.obj = some o4) (k2 : ¬ o4.nbool > e4.maxBool)
    (k3 : e4.computeResult = Except.ok ())
    (k4 : processLumps e4.triangulateFn e4.manifolds = (Except.error err4, evs4)) :
    run_xshape2d e2 = (Except.error err2, [Event.boolKernel2D])
    ∧ run_xsolid e3 = (Except.error err3, [Event.boolKernel3D])
    ∧ (run_xsolid e4).1 = Except.error err4 :=
  ⟨run_xshape2d_propagates e2 o2 err2 h1 h2 h3,
   run_xsolid_propagates e3 o3 err3 g1 g2 g3 g4,
   run_xsolid_tri_propagates e4 o4 err4 evs4 k1 k2 k3 k4⟩

def envC8p : Shape2dEnv :=
  { counts := fun _ => 1, maxBool := 10, obj := some ⟨1⟩,
    clipperResult := Except.error (Err.other "clipper failure"),
    write2d := fun _ _ => Except.ok "" }

def envC8s : SolidEnv :=
  { counts := fun _ => 1, maxBool := 10, obj := some ⟨1⟩,
    computeResult := Except.error (Err.other "non-carve failure"),
    manifolds := [], triangulateFn := fun _ => Except.ok [],
    write3d := fun _ _ => Except.ok "" }

def envC8t : SolidEnv :=
  { counts := fun _ => 1, maxBool := 10, obj := some ⟨1⟩,
    computeResult := Except.ok (),
    manifolds := [⟨4, [⟨[0, 1, 2, 3]⟩]⟩],
    triangulateFn := fun _ => Except.error (Err.other "triangulation failure"),
    write3d := fun _ _ => Except.ok "" }

/-- C8 witness: a concrete clipper failure propagates out of the 2D path with
no export; a non-carve compute failure and a triangulation failure propagate
out of the 3D path. -/
theorem C8_witness :
    run_xshape2d envC8p = (Except.error (Err.other "clipper failure"), [Event.boolKernel2D])
    ∧ run_xsolid envC8s =
        (Except.error (Err.other "non-carve failure"), [Event.boolKernel3D])
    ∧ (run_xsolid envC8t).1 = Except.error (Err.other "triangulation failure") :=
  C8_no_2d_recovery envC8p ⟨1⟩ (Err.other "clipper failure") rfl (by decide) rfl
    envC8s ⟨1⟩ (Err.other "non-carve failure") rfl (by decide) rfl
      (fun m h => Err.noConfusion h)
    envC8t ⟨1⟩ (Err.other "triangulation failure") [Event.triKernel]
      rfl (by decide) rfl rfl

/-- C9: with a parsed command line, a present `xcsg-file` argument and an
existing input file, `run` returns `Except.ok true` even when the XML tree
cannot be read, there is no root, the root is not tagged "xcsg", or no child
of the root is classifiable — none of these produce a false return or an
exception from `run` itself. -/
theorem C9_soft_failures_return_true (env : RunEnv) (raw : String)
    (hp : env.parsed_ok = true) (hc : ¬ env.counts "xcsg-file" = 0)
    (hg : env.get_file = Except.ok raw)
    (he : env.exists_file (normalize_path raw) = true)
    (hdisj : env.read_xml (effective_path env (normalize_path raw)) = false
      ∨ env.get_root (effective_path env (normalize_path raw)) = none
      ∨ ∃ r, env.get_root (effective_path env (normalize_path raw)) = some r
          ∧ (¬ r.tag = "xcsg" ∨ firstActionable r.children = none)) :
    (run env).1 = Except.ok true :=
  run_no_actionable_ok env raw hp hc hg he hdisj

def envC9 : RunEnv :=
  { parsed_ok := true, counts := fun _ => 1,
    get_file := Except.ok "broken.xcsg",
    exists_file := fun _ => true,
    getExt := fun _ => ".xcsg", convertedPath := fun s => s,
    read_xml := fun _ => false,
    get_root := fun _ => none,
    solidRun := fun _ => Except.ok true, shape2dRun := fun _ => Except.ok true }

/-- C9 witness: a run whose XML tree cannot be read still returns success. -/
theorem C9_witness : (run envC9).1 = Except.ok true :=
  C9_soft_failures_return_true envC9 "broken.xcsg" rfl (by decide) rfl rfl
    (Or.inl rfl)

/-- C10: every backslash in the command-line input path is replaced by a
forward slash before any file-system check: the path the existence check sees
and the path the XML read (and everything downstream) sees are both the
normalized path, which contains no backslash at all. -/
theorem C10_backslash_normalized (env : RunEnv) (raw p q : String)
    (hg : env.get_file = Except.ok raw)
    (hpm : Event.existsCheck p ∈ (run env).2)
    (hext : ¬ env.getExt (normalize_path raw) = ".csg")
    (hqm : Event.readXml q ∈ (run env).2) :
    p = normalize_path raw ∧ q = normalize_path raw ∧ '\\' ∉ p.data := by
  have hp2 := run_existsCheck_eq env raw hg p hpm
  have hq2 := run_readXml_eq env raw hg q hqm
  have heff : effective_path env (normalize_path raw) = normalize_path raw := by
    unfold effective_path
    rw [if_neg hext]
  refine ⟨hp2, by rw [hq2, heff], ?_⟩
  rw [hp2]
  exact fun hmem => normalize_path_no_backslash raw '\\' hmem rfl

def envC10 : RunEnv :=
  { parsed_ok := true, counts := fun _ => 1,
    get_file := Except.ok "C:\\dir\\box.xcsg",
    exists_file := fun _ => true,
    getExt := fun _ => ".xcsg", convertedPath := fun s => s,
    read_xml := fun _ => false,
    get_root := fun _ => none,
    solidRun := fun _ => Except.ok true, shape2dRun := fun _ => Except.ok true }

/-- C10 witness: the Windows-style path "C:\dir\box.xcsg" is seen by the
existence check and the XML read as "C:/dir/box.xcsg", with no backslash. -/
theorem C10_witness :
    "C:/dir/box.xcsg" = normalize_path "C:\\dir\\box.xcsg"
    ∧ "C:/dir/box.xcsg" = normalize_path "C:\\dir\\box.xcsg"
    ∧ '\\' ∉ "C:/dir/box.xcsg".data :=
  C10_backslash_normalized envC10 "C:\\dir\\box.xcsg" "C:/dir/box.xcsg"
    "C:/dir/box.xcsg" rfl (by decide) (by decide) (by decide)

end Xcsg
